import Mathlib

/-!
Shallow embedding of the coding-assessment editor screen
(components/test/CodeEditor.tsx): its session state, the language-change
handler with the code-sync effect, the submit coordinator, and the
reattempt-dialog handlers. Definitions mirror the source control flow;
network responses are passed in as explicit outcomes and side effects are
returned as an explicit list.
-/

namespace CodeEditor

/-- The closed set of editor languages (`type Language`). -/
inductive Language where
  | python
  | javascript
  | java
  | cpp
deriving DecidableEq, Repr

/-- Questions are opaque values handed to the rendering callback; we model
them by their identifier. -/
abbrev Question := String

/-- The per-language default templates (`const defaultCode`). -/
def defaultCode : Language → String
  | .python => "# Write your Python code here"
  | .javascript => "// Write your JavaScript code here"
  | .java => "// Write your Java code here"
  | .cpp => "// Write your C++ code here"

/-- The parsed JSON body of a successful fetch
(`{error?, isComplete, nextQuestion?}`). -/
structure SubmissionData where
  error : Option String
  isComplete : Bool
  nextQuestion : Option Question
deriving DecidableEq, Repr

/-- Outcome of the network call: either the fetch itself throws, or a
response arrives with an ok flag and a JSON body. -/
inductive FetchOutcome where
  | transportError
  | response (ok : Bool) (data : SubmissionData)
deriving DecidableEq, Repr

/-- JavaScript truthiness of an optional string field (`if (data.error)`):
true exactly for a present, non-empty string. -/
def truthyStr : Option String → Bool
  | none => false
  | some s => s ≠ ""

/-- JavaScript `a || b` on an optional string: the left value when present
and non-empty, else the right value. -/
def jsOr (a : Option String) (b : String) : String :=
  match a with
  | none => b
  | some s => if s = "" then b else s

/-- The component state held in `useState` hooks: selected language, code
text, in-flight flag, the two dialog flags, and the stored submission
response. -/
structure EditorState where
  language : Language
  code : String
  isSubmitting : Bool
  showErrorDialog : Bool
  showReattemptDialog : Bool
  submissionResponse : Option SubmissionData
deriving DecidableEq, Repr

/-- Observable side effects of the handlers: the fetch request, toasts,
the question-change and test-complete callbacks, marking the test
completed, and router navigation. -/
inductive Effect where
  | fetchRequest (questionId : String) (code : String) (language : Language)
  | toast (message : String) (variant : String)
  | onQuestionChange (q : Question)
  | onTestComplete (shouldReattempt : Bool) (previousCode : String)
  | markTestAsCompleted
  | routerPush (route : String)
deriving DecidableEq, Repr

/-- Initial hook state at mount: `useState('python')` for the language and
`useState(initialStoredCode || defaultCode[language])` for the code. -/
def initialState (initialStoredCode : Option String) : EditorState :=
  { language := .python
    code := jsOr initialStoredCode (defaultCode .python)
    isSubmitting := false
    showErrorDialog := false
    showReattemptDialog := false
    submissionResponse := none }

/-- The `useEffect` body with deps `[initialStoredCode, language]`:
`setCode(initialStoredCode || defaultCode[language])`. It runs after any
render in which one of its dependencies changed, in particular after a
language change. -/
def codeSyncEffect (initialStoredCode : Option String) (s : EditorState) : EditorState :=
  { s with code := jsOr initialStoredCode (defaultCode s.language) }

/-- The `handleLanguageChange` handler body: `setLanguage(value)` then
`setCode(defaultCode[value])`. -/
def handleLanguageChange (value : Language) (s : EditorState) : EditorState :=
  { s with language := value, code := defaultCode value }

/-- A user language-change event as committed by React: the handler runs,
and because the `language` dependency changed, the code-sync effect then
re-runs on the new state. -/
def languageChange (initialStoredCode : Option String) (value : Language)
    (s : EditorState) : EditorState :=
  codeSyncEffect initialStoredCode (handleLanguageChange value s)

/-- The `handleSubmit` body as a function of the component props
(question id, `testStatus.attemptsRemaining`), the fetch outcome and the
current state, returning the post-handler state and the emitted effects.
The try block sets the in-flight flag, issues the fetch, throws on a
non-ok response or a truthy `data.error`, shows the success toast, then
branches on `data.isComplete` (reattempt dialog when attempts remain,
else mark completed and navigate) and otherwise on `data.nextQuestion`
(reset the editor and invoke the callback); the catch block shows the
failure toast and opens the error dialog; the finally block clears the
in-flight flag. -/
def handleSubmit (questionId : String) (attemptsRemaining : Nat)
    (outcome : FetchOutcome) (s : EditorState) : EditorState × List Effect :=
  let req := Effect.fetchRequest questionId s.code s.language
  let failToast := Effect.toast "Failed to submit code. Please try again." "destructive"
  match outcome with
  | .transportError =>
      ({ s with isSubmitting := false, showErrorDialog := true }, [req, failToast])
  | .response ok data =>
      if ok = false then
        ({ s with isSubmitting := false, showErrorDialog := true }, [req, failToast])
      else if truthyStr data.error then
        ({ s with isSubmitting := false, showErrorDialog := true }, [req, failToast])
      else
        let okToast := Effect.toast "Code submitted successfully" "default"
        if data.isComplete then
          if attemptsRemaining > 0 then
            ({ s with isSubmitting := false
                      submissionResponse := some data
                      showReattemptDialog := true }, [req, okToast])
          else
            ({ s with isSubmitting := false },
             [req, okToast, Effect.markTestAsCompleted, Effect.routerPush "/test-complete"])
        else
          match data.nextQuestion with
          | some q =>
              ({ s with isSubmitting := false, code := defaultCode s.language },
               [req, okToast, Effect.onQuestionChange q])
          | none =>
              ({ s with isSubmitting := false }, [req, okToast])

/-- A click on the submit button: the button carries
`disabled={isSubmitting}`, so while a submission is in flight the click
does not reach `handleSubmit` and nothing happens. -/
def submitClick (questionId : String) (attemptsRemaining : Nat)
    (outcome : FetchOutcome) (s : EditorState) : EditorState × List Effect :=
  if s.isSubmitting then (s, [])
  else handleSubmit questionId attemptsRemaining outcome s

/-- The `handleReattempt` handler: close the reattempt dialog and invoke
`onTestComplete(true, code)` with the current code. -/
def handleReattempt (s : EditorState) : EditorState × List Effect :=
  ({ s with showReattemptDialog := false }, [Effect.onTestComplete true s.code])

/-- The `handleFinishTest` handler: `markTestAsCompleted()` then navigate
to the completion route. -/
def handleFinishTest (s : EditorState) : EditorState × List Effect :=
  (s, [Effect.markTestAsCompleted, Effect.routerPush "/test-complete"])

/-- Number of `onQuestionChange` invocations in an effect list. -/
def countQuestionChange (effs : List Effect) : Nat :=
  effs.countP (fun e => match e with | Effect.onQuestionChange _ => true | _ => false)

/-- Number of `onTestComplete` invocations in an effect list. -/
def countTestComplete (effs : List Effect) : Nat :=
  effs.countP (fun e => match e with | Effect.onTestComplete _ _ => true | _ => false)

/-- Number of `markTestAsCompleted` calls in an effect list. -/
def countMarkCompleted (effs : List Effect) : Nat :=
  effs.countP (fun e => match e with | Effect.markTestAsCompleted => true | _ => false)

/-- Number of router navigations in an effect list. -/
def countPush (effs : List Effect) : Nat :=
  effs.countP (fun e => match e with | Effect.routerPush _ => true | _ => false)

/-- Number of fetch requests in an effect list. -/
def countFetch (effs : List Effect) : Nat :=
  effs.countP (fun e => match e with | Effect.fetchRequest _ _ _ => true | _ => false)

/-- An outcome classified as a submission failure: the fetch threw, the
response was non-ok, or the body carried a truthy `error` field. All three
land in the catch block. -/
def isFailureOutcome : FetchOutcome → Bool
  | .transportError => true
  | .response ok data => !ok || truthyStr data.error

/-- C1 counterexample: with a non-empty `initialStoredCode` ("x"), changing
the language to JavaScript does not leave the JavaScript default template
in the editor — the code-sync effect re-runs on the language change and
restores the stored code, so the claimed reset to the template fails. -/
theorem C1_counterexample :
    ¬ (languageChange (some "x") Language.javascript (initialState (some "x"))).code
        = defaultCode Language.javascript := by
  decide

/-- C1 (amended): changing the language to L sets selectedLanguage to L;
when `initialStoredCode` is absent or empty, currentCode is reset to L's
default template; but when a non-empty `initialStoredCode` was supplied at
mount, the code-sync effect re-runs after the change and currentCode ends
as that stored code, not the template. -/
theorem C1_language_change (isc : Option String) (L : Language) (s : EditorState) :
    (languageChange isc L s).language = L ∧
    ((isc = none ∨ isc = some "") → (languageChange isc L s).code = defaultCode L) ∧
    (∀ c : String, isc = some c → ¬ c = "" → (languageChange isc L s).code = c) := by
  refine ⟨rfl, ?_, ?_⟩
  · rintro (rfl | rfl) <;>
      simp [languageChange, codeSyncEffect, handleLanguageChange, jsOr]
  · rintro c rfl hc
    simp [languageChange, codeSyncEffect, handleLanguageChange, jsOr, hc]

/-- C1 witness: concrete instances of both sides of the amended claim. -/
theorem C1_language_change_witness :
    (languageChange none Language.cpp (initialState none)).code
      = defaultCode Language.cpp ∧
    (languageChange (some "print(1)") Language.java (initialState (some "print(1)"))).code
      = "print(1)" :=
  ⟨(C1_language_change none Language.cpp (initialState none)).2.1 (Or.inl rfl),
   (C1_language_change (some "print(1)") Language.java
      (initialState (some "print(1)"))).2.2 "print(1)" rfl (by decide)⟩

/-- C2: a submit click while the submitting flag is already true is a
no-op — the button is disabled, so no state changes, no effects are
emitted, and in particular no second fetch is issued. -/
theorem C2_submit_noop_while_submitting (qid : String) (attempts : Nat)
    (outcome : FetchOutcome) (s : EditorState) (h : s.isSubmitting = true) :
    submitClick qid attempts outcome s = (s, []) ∧
    countFetch (submitClick qid attempts outcome s).2 = 0 := by
  simp [submitClick, h, countFetch]

/-- C2 witness: a concrete in-flight state on which the click is a no-op. -/
theorem C2_submit_noop_witness :
    submitClick "q1" 1 FetchOutcome.transportError
        { initialState none with isSubmitting := true }
      = ({ initialState none with isSubmitting := true }, []) ∧
    countFetch (submitClick "q1" 1 FetchOutcome.transportError
        { initialState none with isSubmitting := true }).2 = 0 :=
  C2_submit_noop_while_submitting "q1" 1 FetchOutcome.transportError
    { initialState none with isSubmitting := true } rfl

/-- C3: on every fetch outcome — transport failure, non-ok response,
business error, advance, completion, or the silent fall-through — the
finally block leaves the submitting flag cleared in the final state. -/
theorem C3_submitting_cleared (qid : String) (attempts : Nat)
    (outcome : FetchOutcome) (s : EditorState) :
    (handleSubmit qid attempts outcome s).1.isSubmitting = false := by
  rcases outcome with _ | ⟨ok, err, ic, nq⟩
  · rfl
  · cases ok <;> cases ic <;> rcases nq with _ | q <;>
      by_cases he : truthyStr err = true <;>
      rcases Nat.eq_zero_or_pos attempts with ha | ha <;>
      simp [handleSubmit, he, ha]

/-- C4: on any failure outcome — transport error, non-ok response, or a
truthy business-level error field — the error dialog is opened, code and
language are left unchanged, and the emitted effects are identical for
every failure kind: the fetch request followed by the destructive toast. -/
theorem C4_failure_path (qid : String) (attempts : Nat)
    (outcome : FetchOutcome) (s : EditorState) (h : isFailureOutcome outcome = true) :
    (handleSubmit qid attempts outcome s).1.showErrorDialog = true ∧
    (handleSubmit qid attempts outcome s).1.code = s.code ∧
    (handleSubmit qid attempts outcome s).1.language = s.language ∧
    (handleSubmit qid attempts outcome s).2
      = [Effect.fetchRequest qid s.code s.language,
         Effect.toast "Failed to submit code. Please try again." "destructive"] := by
  rcases outcome with _ | ⟨ok, data⟩
  · exact ⟨rfl, rfl, rfl, rfl⟩
  · cases ok
    · simp [handleSubmit]
    · have he : truthyStr data.error = true := by
        simpa [isFailureOutcome] using h
      simp [handleSubmit, he]

/-- C4 witness: a concrete business-error response (ok response whose body
carries `error = "timeout"`) takes the failure path. -/
theorem C4_failure_path_witness :
    (handleSubmit "q1" 1 (FetchOutcome.response true ⟨some "timeout", false, none⟩)
        (initialState none)).1.showErrorDialog = true ∧
    (handleSubmit "q1" 1 (FetchOutcome.response true ⟨some "timeout", false, none⟩)
        (initialState none)).1.code = (initialState none).code ∧
    (handleSubmit "q1" 1 (FetchOutcome.response true ⟨some "timeout", false, none⟩)
        (initialState none)).1.language = (initialState none).language ∧
    (handleSubmit "q1" 1 (FetchOutcome.response true ⟨some "timeout", false, none⟩)
        (initialState none)).2
      = [Effect.fetchRequest "q1" (initialState none).code (initialState none).language,
         Effect.toast "Failed to submit code. Please try again." "destructive"] :=
  C4_failure_path "q1" 1 (FetchOutcome.response true ⟨some "timeout", false, none⟩)
    (initialState none) (by decide)

/-- C5: an ok response with no error, isComplete false and a next question
resets the code to the default template of the currently selected language,
leaves the language itself unchanged, and invokes onQuestionChange exactly
once, with that next question. -/
theorem C5_advance (qid : String) (attempts : Nat) (data : SubmissionData)
    (s : EditorState) (q : Question)
    (he : truthyStr data.error = false) (hc : data.isComplete = false)
    (hq : data.nextQuestion = some q) :
    (handleSubmit qid attempts (FetchOutcome.response true data) s).1.code
      = defaultCode s.language ∧
    (handleSubmit qid attempts (FetchOutcome.response true data) s).1.language
      = s.language ∧
    countQuestionChange
      (handleSubmit qid attempts (FetchOutcome.response true data) s).2 = 1 ∧
    (handleSubmit qid attempts (FetchOutcome.response true data) s).2
      = [Effect.fetchRequest qid s.code s.language,
         Effect.toast "Code submitted successfully" "default",
         Effect.onQuestionChange q] := by
  simp [handleSubmit, he, hc, hq, countQuestionChange]

/-- C5 witness: the spec scenario — submit q1 in python, receive
isComplete false with next question q2. -/
theorem C5_advance_witness :
    (handleSubmit "q1" 0 (FetchOutcome.response true ⟨none, false, some "q2"⟩)
        (initialState none)).1.code = defaultCode (initialState none).language ∧
    (handleSubmit "q1" 0 (FetchOutcome.response true ⟨none, false, some "q2"⟩)
        (initialState none)).1.language = (initialState none).language ∧
    countQuestionChange (handleSubmit "q1" 0
        (FetchOutcome.response true ⟨none, false, some "q2"⟩) (initialState none)).2 = 1 ∧
    (handleSubmit "q1" 0 (FetchOutcome.response true ⟨none, false, some "q2"⟩)
        (initialState none)).2
      = [Effect.fetchRequest "q1" (initialState none).code (initialState none).language,
         Effect.toast "Code submitted successfully" "default",
         Effect.onQuestionChange "q2"] :=
  C5_advance "q1" 0 ⟨none, false, some "q2"⟩ (initialState none) "q2" rfl rfl rfl

/-- C6: an ok, error-free response with isComplete true while
attemptsRemaining is 0 opens no dialog (both dialog flags are left exactly
as they were), and the effects contain markTestAsCompleted exactly once
and exactly one navigation, to the completion route. -/
theorem C6_complete_no_attempts (qid : String) (data : SubmissionData)
    (s : EditorState)
    (he : truthyStr data.error = false) (hc : data.isComplete = true) :
    (handleSubmit qid 0 (FetchOutcome.response true data) s).1.showReattemptDialog
      = s.showReattemptDialog ∧
    (handleSubmit qid 0 (FetchOutcome.response true data) s).1.showErrorDialog
      = s.showErrorDialog ∧
    countMarkCompleted
      (handleSubmit qid 0 (FetchOutcome.response true data) s).2 = 1 ∧
    countPush (handleSubmit qid 0 (FetchOutcome.response true data) s).2 = 1 ∧
    Effect.routerPush "/test-complete"
      ∈ (handleSubmit qid 0 (FetchOutcome.response true data) s).2 := by
  simp [handleSubmit, he, hc, countMarkCompleted, countPush]

/-- C6 witness: concrete completed response with zero attempts remaining. -/
theorem C6_complete_no_attempts_witness :
    (handleSubmit "q1" 0 (FetchOutcome.response true ⟨none, true, none⟩)
        (initialState none)).1.showReattemptDialog = (initialState none).showReattemptDialog ∧
    (handleSubmit "q1" 0 (FetchOutcome.response true ⟨none, true, none⟩)
        (initialState none)).1.showErrorDialog = (initialState none).showErrorDialog ∧
    countMarkCompleted (handleSubmit "q1" 0
        (FetchOutcome.response true ⟨none, true, none⟩) (initialState none)).2 = 1 ∧
    countPush (handleSubmit "q1" 0
        (FetchOutcome.response true ⟨none, true, none⟩) (initialState none)).2 = 1 ∧
    Effect.routerPush "/test-complete" ∈ (handleSubmit "q1" 0
        (FetchOutcome.response true ⟨none, true, none⟩) (initialState none)).2 :=
  C6_complete_no_attempts "q1" ⟨none, true, none⟩ (initialState none) rfl rfl

/-- C7: after a completed, error-free submission with attempts remaining,
the reattempt dialog is open and the code is the code just submitted;
choosing Reattempt closes the dialog and emits onTestComplete(true, that
code) and nothing else; choosing Finish Test emits markTestAsCompleted and
the navigation to the completion route and never emits the restart
callback. -/
theorem C7_reattempt_choices (qid : String) (attempts : Nat)
    (data : SubmissionData) (s : EditorState)
    (he : truthyStr data.error = false) (hc : data.isComplete = true)
    (ha : 0 < attempts) :
    (handleSubmit qid attempts (FetchOutcome.response true data) s).1.showReattemptDialog
      = true ∧
    (handleSubmit qid attempts (FetchOutcome.response true data) s).1.code = s.code ∧
    (handleReattempt
      (handleSubmit qid attempts (FetchOutcome.response true data) s).1).1.showReattemptDialog
      = false ∧
    (handleReattempt
      (handleSubmit qid attempts (FetchOutcome.response true data) s).1).2
      = [Effect.onTestComplete true s.code] ∧
    (handleFinishTest
      (handleSubmit qid attempts (FetchOutcome.response true data) s).1).2
      = [Effect.markTestAsCompleted, Effect.routerPush "/test-complete"] ∧
    countTestComplete (handleFinishTest
      (handleSubmit qid attempts (FetchOutcome.response true data) s).1).2 = 0 := by
  simp [handleSubmit, handleReattempt, handleFinishTest, he, hc, ha, countTestComplete]

/-- C7 witness: the spec scenario with attemptsRemaining = 2. -/
theorem C7_reattempt_choices_witness :
    (handleSubmit "q1" 2 (FetchOutcome.response true ⟨none, true, none⟩)
        (initialState none)).1.showReattemptDialog = true ∧
    (handleSubmit "q1" 2 (FetchOutcome.response true ⟨none, true, none⟩)
        (initialState none)).1.code = (initialState none).code ∧
    (handleReattempt (handleSubmit "q1" 2
        (FetchOutcome.response true ⟨none, true, none⟩)
        (initialState none)).1).1.showReattemptDialog = false ∧
    (handleReattempt (handleSubmit "q1" 2
        (FetchOutcome.response true ⟨none, true, none⟩) (initialState none)).1).2
      = [Effect.onTestComplete true (initialState none).code] ∧
    (handleFinishTest (handleSubmit "q1" 2
        (FetchOutcome.response true ⟨none, true, none⟩) (initialState none)).1).2
      = [Effect.markTestAsCompleted, Effect.routerPush "/test-complete"] ∧
    countTestComplete (handleFinishTest (handleSubmit "q1" 2
        (FetchOutcome.response true ⟨none, true, none⟩) (initialState none)).1).2 = 0 :=
  C7_reattempt_choices "q1" 2 ⟨none, true, none⟩ (initialState none) rfl rfl
    (by decide)

/-- C8: when a response violates the exclusivity contract by carrying both
isComplete true and a next question, the isComplete branch wins: the
question-change callback is never invoked, the editor code is not reset,
and the outcome is the SessionComplete handling (reattempt dialog when
attempts remain, else completion and navigation). The model is a total
function, so the violating shape is handled without any failure. -/
theorem C8_isComplete_precedence (qid : String) (attempts : Nat)
    (data : SubmissionData) (s : EditorState) (q : Question)
    (he : truthyStr data.error = false) (hc : data.isComplete = true)
    (_hq : data.nextQuestion = some q) :
    countQuestionChange
      (handleSubmit qid attempts (FetchOutcome.response true data) s).2 = 0 ∧
    (handleSubmit qid attempts (FetchOutcome.response true data) s).1.code = s.code ∧
    (0 < attempts →
      (handleSubmit qid attempts (FetchOutcome.response true data) s).1.showReattemptDialog
        = true) ∧
    (attempts = 0 →
      countMarkCompleted
        (handleSubmit qid attempts (FetchOutcome.response true data) s).2 = 1 ∧
      countPush (handleSubmit qid attempts (FetchOutcome.response true data) s).2 = 1) := by
  rcases Nat.eq_zero_or_pos attempts with ha | ha
  · simp [handleSubmit, he, hc, ha, countQuestionChange, countMarkCompleted, countPush]
  · simp [handleSubmit, he, hc, ha, countQuestionChange, countMarkCompleted, countPush]
    omega

/-- C8 witness: a concrete contract-violating response with both signals
set, at one attempt remaining. -/
theorem C8_isComplete_precedence_witness :
    countQuestionChange (handleSubmit "q1" 1
        (FetchOutcome.response true ⟨none, true, some "q2"⟩) (initialState none)).2 = 0 ∧
    (handleSubmit "q1" 1 (FetchOutcome.response true ⟨none, true, some "q2"⟩)
        (initialState none)).1.code = (initialState none).code ∧
    (0 < 1 →
      (handleSubmit "q1" 1 (FetchOutcome.response true ⟨none, true, some "q2"⟩)
          (initialState none)).1.showReattemptDialog = true) ∧
    ((1 : Nat) = 0 →
      countMarkCompleted (handleSubmit "q1" 1
          (FetchOutcome.response true ⟨none, true, some "q2"⟩) (initialState none)).2 = 1 ∧
      countPush (handleSubmit "q1" 1
          (FetchOutcome.response true ⟨none, true, some "q2"⟩) (initialState none)).2 = 1) :=
  C8_isComplete_precedence "q1" 1 ⟨none, true, some "q2"⟩ (initialState none) "q2"
    rfl rfl rfl

/-- C9: at mount the code state is initialised to initialStoredCode
exactly when it is a present, non-empty string; when it is absent, null or
empty, the code is the default template of the initially selected
language, which is python. -/
theorem C9_mount_initialisation :
    (∀ c : String, ¬ c = "" → (initialState (some c)).code = c) ∧
    (initialState none).code = defaultCode Language.python ∧
    (initialState (some "")).code = defaultCode Language.python ∧
    (initialState none).language = Language.python := by
  refine ⟨?_, rfl, by decide, rfl⟩
  intro c hc
  simp [initialState, jsOr, hc]

/-- C9 witness: a concrete non-empty stored code is used verbatim. -/
theorem C9_mount_initialisation_witness :
    (initialState (some "print(1)")).code = "print(1)" :=
  C9_mount_initialisation.1 "print(1)" (by decide)

/-- C10: an ok response with no error field, isComplete false and no next
question falls through every branch: the final state is the prior state
with only the submitting flag cleared (so dialogs, code and language are
untouched), and the only effects are the fetch and the success toast — no
dialog, no onQuestionChange, no onTestComplete, no navigation. -/
theorem C10_silent_fallthrough (qid : String) (attempts : Nat)
    (data : SubmissionData) (s : EditorState)
    (he : truthyStr data.error = false) (hc : data.isComplete = false)
    (hq : data.nextQuestion = none) :
    (handleSubmit qid attempts (FetchOutcome.response true data) s).1
      = { s with isSubmitting := false } ∧
    (handleSubmit qid attempts (FetchOutcome.response true data) s).2
      = [Effect.fetchRequest qid s.code s.language,
         Effect.toast "Code submitted successfully" "default"] ∧
    countQuestionChange
      (handleSubmit qid attempts (FetchOutcome.response true data) s).2 = 0 ∧
    countTestComplete
      (handleSubmit qid attempts (FetchOutcome.response true data) s).2 = 0 ∧
    countPush (handleSubmit qid attempts (FetchOutcome.response true data) s).2 = 0 := by
  simp [handleSubmit, he, hc, hq, countQuestionChange, countTestComplete, countPush]

/-- C10 witness: a concrete out-of-contract empty response shape. -/
theorem C10_silent_fallthrough_witness :
    (handleSubmit "q1" 1 (FetchOutcome.response true ⟨none, false, none⟩)
        (initialState none)).1 = { initialState none with isSubmitting := false } ∧
    (handleSubmit "q1" 1 (FetchOutcome.response true ⟨none, false, none⟩)
        (initialState none)).2
      = [Effect.fetchRequest "q1" (initialState none).code (initialState none).language,
         Effect.toast "Code submitted successfully" "default"] ∧
    countQuestionChange (handleSubmit "q1" 1
        (FetchOutcome.response true ⟨none, false, none⟩) (initialState none)).2 = 0 ∧
    countTestComplete (handleSubmit "q1" 1
        (FetchOutcome.response true ⟨none, false, none⟩) (initialState none)).2 = 0 ∧
    countPush (handleSubmit "q1" 1
        (FetchOutcome.response true ⟨none, false, none⟩) (initialState none)).2 = 0 :=
  C10_silent_fallthrough "q1" 1 ⟨none, false, none⟩ (initialState none) rfl rfl rfl

end CodeEditor
